import Mathlib

/-!
Verification of the copy-generation fallback orchestrator of the
AI_for_Bharat_AWS repository (file `src/lib/bedrock.ts`, exposed through
`src/app/api/generate/route.ts`).

The embedding models:
  * JSON values and the semantics of `JSON.parse` (an executable parser),
  * `parseResponse` (markdown-fence stripping, trim, parse, hardcoded
    default on parse failure),
  * `callGeminiDirect` (primary tier, 1500 ms abort deadline),
  * `callPollinationsText` (secondary tier, no deadline),
  * `generateMarketingCopy` (the orchestrator), instrumented with the
    sequence of tier calls it performs.

Provider nondeterminism (network outcome, HTTP status, response body,
latency) is captured by an explicit `World` record; the TypeScript
functions become total Lean functions of the world.
-/

namespace Prachar

/-- JSON values as produced by `JSON.parse`.  Numeric literals keep their
lexeme; object members keep source order. -/
inductive Json where
  | null : Json
  | bool : Bool → Json
  | num : String → Json
  | str : String → Json
  | arr : List Json → Json
  | obj : List (String × Json) → Json
deriving Repr

/-- JSON inter-token whitespace: space, tab, line feed, carriage return. -/
def isJsonWs (c : Char) : Bool :=
  c = ' ' || c = '\t' || c = '\n' || c = '\r'

/-- Drop leading JSON whitespace. -/
def skipWs (s : List Char) : List Char :=
  s.dropWhile isJsonWs

/-- Value of a hexadecimal digit (0-9, a-f, A-F). -/
def hexVal (c : Char) : Option Nat :=
  let n := c.toNat
  if 48 ≤ n ∧ n ≤ 57 then some (n - 48)
  else if 97 ≤ n ∧ n ≤ 102 then some (n - 87)
  else if 65 ≤ n ∧ n ≤ 70 then some (n - 55)
  else none

/-- Four hex digits of a `\u` escape. -/
def parseHex4 (s : List Char) : Option (Char × List Char) :=
  match s with
  | a :: b :: c :: d :: rest =>
    match hexVal a, hexVal b, hexVal c, hexVal d with
    | some h1, some h2, some h3, some h4 =>
      some (Char.ofNat (h1 * 4096 + h2 * 256 + h3 * 16 + h4), rest)
    | _, _, _, _ => none
  | _ => none

/-- Single-character JSON string escapes. -/
def escChar (c : Char) : Option Char :=
  if c = '"' then some '"'
  else if c = '\\' then some '\\'
  else if c = '/' then some '/'
  else if c = 'b' then some (Char.ofNat 8)
  else if c = 'f' then some (Char.ofNat 12)
  else if c = 'n' then some '\n'
  else if c = 'r' then some '\r'
  else if c = 't' then some '\t'
  else none

/-- Body of a JSON string literal, after the opening quote.  Returns the
decoded characters and the remainder after the closing quote.  Raw control
characters are rejected, as `JSON.parse` does. -/
def parseStr : Nat → List Char → Option (List Char × List Char)
  | 0, _ => none
  | _ + 1, [] => none
  | f + 1, c :: r =>
    if c = '"' then some ([], r)
    else if c = '\\' then
      match r with
      | [] => none
      | e :: r2 =>
        if e = 'u' then
          match parseHex4 r2 with
          | some (u, r3) =>
            match parseStr f r3 with
            | some (cs, r4) => some (u :: cs, r4)
            | none => none
          | none => none
        else
          match escChar e with
          | some d =>
            match parseStr f r2 with
            | some (cs, r3) => some (d :: cs, r3)
            | none => none
          | none => none
    else if c.toNat < 32 then none
    else
      match parseStr f r with
      | some (cs, r2) => some (c :: cs, r2)
      | none => none

/-- Split a maximal run of decimal digits. -/
def takeDigits (s : List Char) : List Char × List Char :=
  (s.takeWhile Char.isDigit, s.dropWhile Char.isDigit)

/-- Optional sign followed by one or more digits (exponent tail). -/
def parseSignDigits (r : List Char) : Option (List Char × List Char) :=
  let p := match r with
    | '+' :: t => (['+'], t)
    | '-' :: t => (['-'], t)
    | _ => (([] : List Char), r)
  match takeDigits p.2 with
  | ([], _) => none
  | (ds, r2) => some (p.1 ++ ds, r2)

/-- Optional exponent part of a JSON number. -/
def parseExpPart (s : List Char) : Option (List Char × List Char) :=
  match s with
  | 'e' :: r => (parseSignDigits r).map (fun p => ('e' :: p.1, p.2))
  | 'E' :: r => (parseSignDigits r).map (fun p => ('E' :: p.1, p.2))
  | _ => some ([], s)

/-- Optional fraction part of a JSON number. -/
def parseFracPart (s : List Char) : Option (List Char × List Char) :=
  match s with
  | '.' :: r =>
    (match takeDigits r with
     | ([], _) => none
     | (ds, r2) => some ('.' :: ds, r2))
  | _ => some ([], s)

/-- JSON number literal (lexeme and remainder).  A leading zero may not be
followed by further integer digits. -/
def parseNum (s : List Char) : Option (List Char × List Char) :=
  let p := match s with
    | '-' :: t => (['-'], t)
    | _ => (([] : List Char), s)
  match p.2 with
  | [] => none
  | c :: r =>
    if c = '0' then
      match parseFracPart r with
      | some (fr, r2) =>
        (match parseExpPart r2 with
         | some (ex, r3) => some (p.1 ++ ['0'] ++ fr ++ ex, r3)
         | none => none)
      | none => none
    else if c.isDigit then
      match takeDigits (c :: r) with
      | (ds, r1) =>
        match parseFracPart r1 with
        | some (fr, r2) =>
          (match parseExpPart r2 with
           | some (ex, r3) => some (p.1 ++ ds ++ fr ++ ex, r3)
           | none => none)
        | none => none
    else none

mutual

/-- One JSON value (fuelled recursive-descent, mirroring `JSON.parse`). -/
def parseValue : Nat → List Char → Option (Json × List Char)
  | 0, _ => none
  | f + 1, s =>
    match skipWs s with
    | [] => none
    | 'n' :: 'u' :: 'l' :: 'l' :: r => some (Json.null, r)
    | 't' :: 'r' :: 'u' :: 'e' :: r => some (Json.bool true, r)
    | 'f' :: 'a' :: 'l' :: 's' :: 'e' :: r => some (Json.bool false, r)
    | '"' :: r =>
      (match parseStr (f + 1) r with
       | some (cs, r2) => some (Json.str (String.mk cs), r2)
       | none => none)
    | '[' :: r =>
      (match skipWs r with
       | ']' :: r2 => some (Json.arr [], r2)
       | _ =>
         match parseElems f r with
         | some (es, r2) => some (Json.arr es, r2)
         | none => none)
    | '\x7b' :: r =>
      (match skipWs r with
       | '\x7d' :: r2 => some (Json.obj [], r2)
       | _ =>
         match parseMembers f r with
         | some (ms, r2) => some (Json.obj ms, r2)
         | none => none)
    | c :: r =>
      if c = '-' || c.isDigit then
        match parseNum (c :: r) with
        | some (ds, r2) => some (Json.num (String.mk ds), r2)
        | none => none
      else none

/-- Comma-separated array elements up to the closing bracket. -/
def parseElems : Nat → List Char → Option (List Json × List Char)
  | 0, _ => none
  | f + 1, s =>
    match parseValue f s with
    | some (v, r) =>
      (match skipWs r with
       | ',' :: r2 =>
         (match parseElems f r2 with
          | some (vs, r3) => some (v :: vs, r3)
          | none => none)
       | ']' :: r2 => some ([v], r2)
       | _ => none)
    | none => none

/-- Comma-separated object members up to the closing brace. -/
def parseMembers : Nat → List Char → Option (List (String × Json) × List Char)
  | 0, _ => none
  | f + 1, s =>
    match skipWs s with
    | '"' :: r =>
      (match parseStr (f + 1) r with
       | some (k, r2) =>
         (match skipWs r2 with
          | ':' :: r3 =>
            (match parseValue f r3 with
             | some (v, r4) =>
               (match skipWs r4 with
                | ',' :: r5 =>
                  (match parseMembers f r5 with
                   | some (ms, r6) => some ((String.mk k, v) :: ms, r6)
                   | none => none)
                | '\x7d' :: r5 => some ([(String.mk k, v)], r5)
                | _ => none)
             | none => none)
          | _ => none)
       | none => none)
    | _ => none

end

/-- Semantics of `JSON.parse`: parse one value, allow surrounding
whitespace, reject trailing input.  `none` models a thrown SyntaxError. -/
def jsonParse (s : String) : Option Json :=
  match parseValue (4 * (s.data.length + 1)) s.data with
  | some (j, r) => if skipWs r = [] then some j else none
  | none => none

/-- Left-to-right, non-overlapping removal of every occurrence of `pat`
(the semantics of a global regex replace with the empty string). -/
def removeAllGo (pat : List Char) : Nat → List Char → List Char
  | 0, s => s
  | _ + 1, [] => []
  | f + 1, c :: cs =>
    if pat.isPrefixOf (c :: cs) then removeAllGo pat f ((c :: cs).drop pat.length)
    else c :: removeAllGo pat f cs

def removeAll (pat : List Char) (s : List Char) : List Char :=
  removeAllGo pat s.length s

/-- Whitespace trimmed by JavaScript `String.prototype.trim` (the ASCII
part, which covers every string produced in this code path). -/
def isTrimWs (c : Char) : Bool :=
  c = ' ' || c = '\t' || c = '\n' || c = '\r' || c = Char.ofNat 11 || c = Char.ofNat 12

/-- Trim leading and trailing whitespace. -/
def trimChars (s : List Char) : List Char :=
  ((s.dropWhile isTrimWs).reverse.dropWhile isTrimWs).reverse

/-- The cleaning step of `parseResponse`:
`text.replace(backtick-backtick-backtick-json, empty).replace(backtick-backtick-backtick, empty).trim()`. -/
def cleanText (text : String) : String :=
  String.mk (trimChars (removeAll "```".data (removeAll "```json".data text.data)))

/-- Hardcoded object returned by `parseResponse` when `JSON.parse` throws. -/
def parseDefault : Json :=
  Json.obj [("hook", Json.str "Innovation meets Tradition. Perfect choice."),
            ("offer", Json.str "Exclusive Member Pricing Applied"),
            ("cta", Json.str "Explore Collection")]

/-- `parseResponse` from `src/lib/bedrock.ts`: strip markdown fences, trim,
`JSON.parse`; on any parse failure return `parseDefault`. -/
def parseResponse (text : String) : Json :=
  match jsonParse (cleanText text) with
  | some j => j
  | none => parseDefault

/-- Network-level outcome of a `fetch`: either the promise rejects with a
connection error, or an HTTP response is obtained. -/
inductive NetResult (α : Type) where
  | fetchError (msg : String) : NetResult α
  | got (a : α) : NetResult α
deriving Repr, DecidableEq

deriving instance DecidableEq for Except

/-- The parts of a Gemini HTTP response the code inspects: `response.ok`,
and the result of `data.candidates[0].content.parts[0].text` extraction
(which throws when the JSON body lacks that shape). -/
structure GeminiHttp where
  ok : Bool
  extracted : Except String String
deriving Repr, DecidableEq

/-- The parts of a Pollinations HTTP response the code inspects:
`response.ok` and `response.text()`. -/
structure PollHttp where
  ok : Bool
  bodyText : String
deriving Repr, DecidableEq

/-- Ways `callGeminiDirect` can throw. -/
inductive PrimFailure where
  | noKey : PrimFailure
  | aborted : PrimFailure
  | fetchFailed (msg : String) : PrimFailure
  | blocked : PrimFailure
  | extractFailed (msg : String) : PrimFailure
deriving Repr, DecidableEq

/-- Ways `callPollinationsText` can throw. -/
inductive SecFailure where
  | fetchFailed (msg : String) : SecFailure
  | backupFailed : SecFailure
deriving Repr, DecidableEq

/-- The 1.5-second abort deadline armed around the Gemini fetch
(`setTimeout(() => controller.abort(), 1500)`), in milliseconds. -/
def geminiDeadlineMs : Nat := 1500

/-- `callGeminiDirect`: throws when no API key is configured; the fetch is
aborted (and the call fails) when the deadline elapses before the response
arrives; a non-ok status throws "Google Blocked"; otherwise the candidate
text is extracted from the body.  The catch block rethrows, so every
failure propagates to the orchestrator. -/
def callGeminiDirect (apiKey : Option String) (latencyMs : Nat)
    (net : NetResult GeminiHttp) (prompt : String) : Except PrimFailure String :=
  match apiKey with
  | none => Except.error PrimFailure.noKey
  | some _ =>
    if geminiDeadlineMs ≤ latencyMs then Except.error PrimFailure.aborted
    else
      match net with
      | NetResult.fetchError m => Except.error (PrimFailure.fetchFailed m)
      | NetResult.got r =>
        if r.ok then
          match r.extracted with
          | Except.ok t => Except.ok t
          | Except.error m => Except.error (PrimFailure.extractFailed m)
        else Except.error PrimFailure.blocked

/-- `callPollinationsText`: plain fetch with no abort controller and no
deadline — `latencyMs` is accepted for symmetry and has no effect.  A
non-ok status throws "Backup Failed"; otherwise the body text is
returned. -/
def callPollinationsText (latencyMs : Nat) (net : NetResult PollHttp)
    (prompt : String) : Except SecFailure String :=
  match net with
  | NetResult.fetchError m => Except.error (SecFailure.fetchFailed m)
  | NetResult.got r =>
    if r.ok then Except.ok r.bodyText else Except.error SecFailure.backupFailed

/-- All provider nondeterminism observable by one orchestration call. -/
structure World where
  apiKey : Option String
  gemLatencyMs : Nat
  gemNet : NetResult GeminiHttp
  pollLatencyMs : Nat
  pollNet : NetResult PollHttp
deriving Repr, DecidableEq

/-- The prompt composed by the orchestrator. -/
def userRequest (topic businessType : String) : String :=
  "Business Type: " ++ businessType ++ ", Campaign Topic: " ++ topic

/-- Hardcoded object returned when both tiers throw (step 3, "Safe Mode"). -/
def staticDefault : Json :=
  Json.obj [("hook", Json.str "Redefine Excellence. Aaj hi shuru karein."),
            ("offer", Json.str "Premium Launch Privilege: 20% Advantage"),
            ("cta", Json.str "Experience the Future")]

/-- Which provider tier a network call went to. -/
inductive TierCall where
  | primary : TierCall
  | secondary : TierCall
deriving Repr, DecidableEq

/-- `generateMarketingCopy`, instrumented with the ordered list of tier
calls it performs.  Mirrors the nested try/catch of the source: primary
call, parse on success; on any primary throw, secondary call, parse on
success; on any secondary throw, the static default. -/
def generateMarketingCopyRun (topic businessType : String) (w : World) :
    Json × List TierCall :=
  let req := userRequest topic businessType
  match callGeminiDirect w.apiKey w.gemLatencyMs w.gemNet req with
  | Except.ok text => (parseResponse text, [TierCall.primary])
  | Except.error _ =>
    match callPollinationsText w.pollLatencyMs w.pollNet req with
    | Except.ok text => (parseResponse text, [TierCall.primary, TierCall.secondary])
    | Except.error _ => (staticDefault, [TierCall.primary, TierCall.secondary])

/-- The value `generateMarketingCopy` returns to its caller. -/
def generateMarketingCopy (topic businessType : String) (w : World) : Json :=
  (generateMarketingCopyRun topic businessType w).1

/-- Everything the orchestrator's body can throw internally. -/
inductive Thrown where
  | primFail (e : PrimFailure) : Thrown
  | secFail (e : SecFailure) : Thrown
deriving Repr, DecidableEq

/-- A JavaScript try/catch over a possibly-throwing computation. -/
def tcatch {ε α : Type} (body : Except ε α) (handler : ε → Except ε α) :
    Except ε α :=
  match body with
  | Except.ok a => Except.ok a
  | Except.error e => handler e

/-- Rewrap a throwing computation's error. -/
def mapErr {ε ε₂ α : Type} (f : ε → ε₂) : Except ε α → Except ε₂ α
  | Except.ok a => Except.ok a
  | Except.error e => Except.error (f e)

/-- `generateMarketingCopy` with its exception flow made explicit: each
provider call may throw, each try/catch is a `tcatch`, and an uncaught
exception would surface as `Except.error`. -/
def generateMarketingCopyE (topic businessType : String) (w : World) :
    Except Thrown Json :=
  let req := userRequest topic businessType
  tcatch
    (do
      let text ← mapErr Thrown.primFail
        (callGeminiDirect w.apiKey w.gemLatencyMs w.gemNet req)
      pure (parseResponse text))
    (fun _ =>
      tcatch
        (do
          let text ← mapErr Thrown.secFail
            (callPollinationsText w.pollLatencyMs w.pollNet req)
          pure (parseResponse text))
        (fun _ => pure staticDefault))

/-- Boolean success test for a throwing computation. -/
def isOkB {ε α : Type} : Except ε α → Bool
  | Except.ok _ => true
  | Except.error _ => false

/-- Look up a field of a JSON object (first occurrence). -/
def Json.getField (j : Json) (k : String) : Option Json :=
  match j with
  | Json.obj kvs => kvs.lookup k
  | _ => none

/-- A field is present with a non-empty string value. -/
def nonEmptyStrField (j : Json) (k : String) : Bool :=
  match Json.getField j k with
  | some (Json.str s) => decide (s ≠ "")
  | _ => false

/-- The shape the route handler spreads: hook, offer and cta all present
and non-empty. -/
def fullTriple (j : Json) : Bool :=
  nonEmptyStrField j "hook" && nonEmptyStrField j "offer" && nonEmptyStrField j "cta"

/-- Requests processed independently by the route: each invocation runs the
orchestrator fresh on its own pair. -/
def processRequests (reqs : List (String × String)) (w : World) : List Json :=
  reqs.map (fun r => generateMarketingCopy r.1 r.2 w)

/-! Concrete worlds used to evaluate the model on specific provider
behaviors. -/

/-- Primary network call succeeds and returns the two-character body
consisting of an opening and a closing brace (valid JSON, empty object);
secondary is down. -/
def wPartial : World :=
  ⟨some "key", 0, NetResult.got ⟨true, Except.ok "\x7b\x7d"⟩, 0,
   NetResult.fetchError "down"⟩

/-- Primary network call succeeds with conversational prose that is not
JSON; secondary would answer with a parseable triple. -/
def wProse : World :=
  ⟨some "key", 0,
   NetResult.got ⟨true, Except.ok "Sure! Here is your campaign: buy now"⟩, 0,
   NetResult.got ⟨true, "\x7b\"hook\":\"h\",\"offer\":\"o\",\"cta\":\"c\"\x7d"⟩⟩

/-- Both tiers fail with connection errors. -/
def wBothFail : World :=
  ⟨some "key", 0, NetResult.fetchError "down", 0, NetResult.fetchError "down"⟩

/-- Primary fails with a non-success HTTP status; same secondary as
`wBothFail`. -/
def wBlocked : World :=
  ⟨some "key", 0, NetResult.got ⟨false, Except.ok "irrelevant"⟩, 0,
   NetResult.fetchError "down"⟩

/-- Primary response would arrive after 2000 ms, past the 1500 ms
deadline; secondary succeeds with unparsable text. -/
def wTimeout : World :=
  ⟨some "key", 2000, NetResult.got ⟨true, Except.ok "\x7b\"hook\":\"x\"\x7d"⟩, 0,
   NetResult.got ⟨true, "gibberish"⟩⟩

/-- Primary succeeds quickly with a parseable triple. -/
def wPrimaryOk : World :=
  ⟨some "key", 0,
   NetResult.got ⟨true, Except.ok "\x7b\"hook\":\"h\",\"offer\":\"o\",\"cta\":\"c\"\x7d"⟩, 0,
   NetResult.fetchError "down"⟩

/-! Characterization lemmas for the orchestrator's three outcomes. -/

/-- When the primary call succeeds, the run parses its text and stops. -/
theorem run_primary_ok (topic businessType : String) (w : World) (s : String)
    (hok : callGeminiDirect w.apiKey w.gemLatencyMs w.gemNet
      (userRequest topic businessType) = Except.ok s) :
    generateMarketingCopyRun topic businessType w =
      (parseResponse s, [TierCall.primary]) := by
  simp only [generateMarketingCopyRun]
  rw [hok]

/-- When the primary call throws and the secondary succeeds, the run
parses the secondary text. -/
theorem run_secondary_ok (topic businessType : String) (w : World)
    (e : PrimFailure) (s : String)
    (hp : callGeminiDirect w.apiKey w.gemLatencyMs w.gemNet
      (userRequest topic businessType) = Except.error e)
    (hs : callPollinationsText w.pollLatencyMs w.pollNet
      (userRequest topic businessType) = Except.ok s) :
    generateMarketingCopyRun topic businessType w =
      (parseResponse s, [TierCall.primary, TierCall.secondary]) := by
  simp only [generateMarketingCopyRun]
  rw [hp, hs]

/-- When both calls throw, the run returns the static default. -/
theorem run_both_fail (topic businessType : String) (w : World)
    (e : PrimFailure) (e2 : SecFailure)
    (hp : callGeminiDirect w.apiKey w.gemLatencyMs w.gemNet
      (userRequest topic businessType) = Except.error e)
    (hs : callPollinationsText w.pollLatencyMs w.pollNet
      (userRequest topic businessType) = Except.error e2) :
    generateMarketingCopyRun topic businessType w =
      (staticDefault, [TierCall.primary, TierCall.secondary]) := by
  simp only [generateMarketingCopyRun]
  rw [hp, hs]

/-- On parse failure the parser yields its hardcoded default. -/
theorem parseResponse_of_fail (s : String)
    (h : jsonParse (cleanText s) = none) : parseResponse s = parseDefault := by
  unfold parseResponse
  rw [h]

/-- On parse success the parser passes the parsed value through. -/
theorem parseResponse_of_ok (s : String) (j : Json)
    (h : jsonParse (cleanText s) = some j) : parseResponse s = j := by
  unfold parseResponse
  rw [h]

/-- Both hardcoded defaults are complete non-empty triples. -/
theorem defaults_full_triple :
    fullTriple parseDefault = true ∧ fullTriple staticDefault = true :=
  ⟨rfl, rfl⟩

/-! Claim theorems. -/

/-- C1 fails as stated: with the primary provider returning the valid JSON
text consisting of an empty object, generateMarketingCopy returns an
object with no fields at all — neither hook nor callToAction is present,
so the orchestrator does return a partial object. -/
theorem C1_counterexample :
    generateMarketingCopy "Diwali" "Sweet Shop" wPartial = Json.obj [] ∧
    Json.getField (generateMarketingCopy "Diwali" "Sweet Shop" wPartial) "hook" = none ∧
    Json.getField (generateMarketingCopy "Diwali" "Sweet Shop" wPartial) "callToAction" = none :=
  ⟨rfl, rfl, rfl⟩

/-- C1 (amended): whenever no network-successful tier returns text that
parses as valid JSON, generateMarketingCopy returns one of the two fixed
default objects, and the result has the three fields hook, offer and cta
present and non-empty; a tier's text that does parse as valid JSON is
returned as-is (and may be partial, as the counterexample shows). -/
theorem C1_amended_full_triple (topic businessType : String) (w : World)
    (h1 : ∀ s, callGeminiDirect w.apiKey w.gemLatencyMs w.gemNet
        (userRequest topic businessType) = Except.ok s →
      jsonParse (cleanText s) = none)
    (h2 : ∀ s, callPollinationsText w.pollLatencyMs w.pollNet
        (userRequest topic businessType) = Except.ok s →
      jsonParse (cleanText s) = none) :
    fullTriple (generateMarketingCopy topic businessType w) = true ∧
    (generateMarketingCopy topic businessType w = parseDefault ∨
     generateMarketingCopy topic businessType w = staticDefault) := by
  have hres : generateMarketingCopy topic businessType w = parseDefault ∨
      generateMarketingCopy topic businessType w = staticDefault := by
    unfold generateMarketingCopy
    cases hp : callGeminiDirect w.apiKey w.gemLatencyMs w.gemNet
        (userRequest topic businessType) with
    | ok s =>
      rw [run_primary_ok topic businessType w s hp,
        parseResponse_of_fail s (h1 s hp)]
      exact Or.inl rfl
    | error e =>
      cases hs : callPollinationsText w.pollLatencyMs w.pollNet
          (userRequest topic businessType) with
      | ok s =>
        rw [run_secondary_ok topic businessType w e s hp hs,
          parseResponse_of_fail s (h2 s hs)]
        exact Or.inl rfl
      | error e2 =>
        rw [run_both_fail topic businessType w e e2 hp hs]
        exact Or.inr rfl
  refine ⟨?_, hres⟩
  cases hres with
  | inl h => rw [h]; exact defaults_full_triple.1
  | inr h => rw [h]; exact defaults_full_triple.2

/-- C1 (amended) witness at a concrete world where both tiers fail. -/
theorem C1_amended_witness :
    fullTriple (generateMarketingCopy "Diwali" "Sweet Shop" wBothFail) = true ∧
    (generateMarketingCopy "Diwali" "Sweet Shop" wBothFail = parseDefault ∨
     generateMarketingCopy "Diwali" "Sweet Shop" wBothFail = staticDefault) :=
  C1_amended_full_triple "Diwali" "Sweet Shop" wBothFail
    (fun _ h => nomatch h) (fun _ h => nomatch h)

/-- C2 fails as stated: the primary network call succeeds with prose that
does not parse, yet the parser does not signal failure and the secondary
tier is never invoked — the orchestration ends after the primary call with
the parser's hardcoded default. -/
theorem C2_counterexample :
    callGeminiDirect wProse.apiKey wProse.gemLatencyMs wProse.gemNet
      (userRequest "Diwali" "Sweet Shop") =
      Except.ok "Sure! Here is your campaign: buy now" ∧
    jsonParse (cleanText "Sure! Here is your campaign: buy now") = none ∧
    (generateMarketingCopyRun "Diwali" "Sweet Shop" wProse).2 = [TierCall.primary] ∧
    generateMarketingCopy "Diwali" "Sweet Shop" wProse = parseDefault :=
  ⟨rfl, rfl, rfl, rfl⟩

/-- C2 (amended): if the primary tier's network call succeeds but its raw
text fails to parse, the parser returns its fixed default object instead
of signalling failure, the orchestrator returns that default, and the
secondary tier is not invoked. -/
theorem C2_amended_parse_failure_no_fallback (topic businessType : String)
    (w : World) (s : String)
    (hok : callGeminiDirect w.apiKey w.gemLatencyMs w.gemNet
      (userRequest topic businessType) = Except.ok s)
    (hbad : jsonParse (cleanText s) = none) :
    generateMarketingCopy topic businessType w = parseDefault ∧
    (generateMarketingCopyRun topic businessType w).2 = [TierCall.primary] := by
  have hrun := run_primary_ok topic businessType w s hok
  unfold generateMarketingCopy
  rw [hrun, parseResponse_of_fail s hbad]
  exact ⟨rfl, rfl⟩

/-- C2 (amended) witness at the concrete prose world. -/
theorem C2_amended_witness :
    generateMarketingCopy "Diwali" "Sweet Shop" wProse = parseDefault ∧
    (generateMarketingCopyRun "Diwali" "Sweet Shop" wProse).2 = [TierCall.primary] :=
  C2_amended_parse_failure_no_fallback "Diwali" "Sweet Shop" wProse
    "Sure! Here is your campaign: buy now" rfl rfl

/-- Helper: once the deadline has elapsed, the primary call fails whatever
the network would have delivered (and also when no key is configured). -/
theorem gemini_late_fails (key : Option String) (lat : Nat)
    (net : NetResult GeminiHttp) (p : String)
    (hlate : geminiDeadlineMs ≤ lat) :
    ∃ e, callGeminiDirect key lat net p = Except.error e := by
  cases key with
  | none => exact ⟨PrimFailure.noKey, rfl⟩
  | some k => exact ⟨PrimFailure.aborted, by simp [callGeminiDirect, hlate]⟩

/-- Helper: a primary call that is not ok is an error. -/
theorem prim_not_ok_error (key : Option String) (lat : Nat)
    (net : NetResult GeminiHttp) (p : String)
    (h : isOkB (callGeminiDirect key lat net p) = false) :
    ∃ e, callGeminiDirect key lat net p = Except.error e := by
  cases hc : callGeminiDirect key lat net p with
  | ok s => rw [hc] at h; exact absurd h (by simp [isOkB])
  | error e => exact ⟨e, rfl⟩

/-- C3: generateMarketingCopy is infallible at its boundary: with the
exception flow made explicit, every input and every combination of
provider outcomes yields a normal return value — never a propagated
exception — and that value is exactly the one the caller receives. -/
theorem C3_infallible_boundary (topic businessType : String) (w : World) :
    generateMarketingCopyE topic businessType w =
      Except.ok (generateMarketingCopy topic businessType w) ∧
    isOkB (generateMarketingCopyE topic businessType w) = true := by
  have h : generateMarketingCopyE topic businessType w =
      Except.ok (generateMarketingCopy topic businessType w) := by
    unfold generateMarketingCopyE generateMarketingCopy
    simp only [generateMarketingCopyRun]
    cases callGeminiDirect w.apiKey w.gemLatencyMs w.gemNet
        (userRequest topic businessType) with
    | ok s => rfl
    | error e =>
      cases callPollinationsText w.pollLatencyMs w.pollNet
          (userRequest topic businessType) with
      | ok s => rfl
      | error e2 => rfl
  exact ⟨h, by rw [h]; rfl⟩

/-- C4: parseResponse is total and never signals failure: every input
whose fence-stripped, trimmed form is not valid JSON yields the fixed
hardcoded object (hook "Innovation meets Tradition. Perfect choice.",
offer "Exclusive Member Pricing Applied", cta "Explore Collection"),
which is distinct from the orchestrator's total-failure default; and any
primary-tier network success terminates the orchestration without the
secondary tier ever being called. -/
theorem C4_parser_total (s : String) (topic businessType : String)
    (w : World) (t : String)
    (hbad : jsonParse (cleanText s) = none)
    (hok : callGeminiDirect w.apiKey w.gemLatencyMs w.gemNet
      (userRequest topic businessType) = Except.ok t) :
    parseResponse s =
      Json.obj [("hook", Json.str "Innovation meets Tradition. Perfect choice."),
                ("offer", Json.str "Exclusive Member Pricing Applied"),
                ("cta", Json.str "Explore Collection")] ∧
    parseResponse s ≠ staticDefault ∧
    (generateMarketingCopyRun topic businessType w).2 = [TierCall.primary] := by
  have h1 := parseResponse_of_fail s hbad
  refine ⟨h1, ?_, ?_⟩
  · rw [h1]
    intro hcontra
    simp [parseDefault, staticDefault] at hcontra
  · rw [run_primary_ok topic businessType w t hok]

/-- C4 witness: a concrete unparsable input and a concrete world whose
primary network call succeeds with prose. -/
theorem C4_parser_total_witness :
    parseResponse "hello" =
      Json.obj [("hook", Json.str "Innovation meets Tradition. Perfect choice."),
                ("offer", Json.str "Exclusive Member Pricing Applied"),
                ("cta", Json.str "Explore Collection")] ∧
    parseResponse "hello" ≠ staticDefault ∧
    (generateMarketingCopyRun "Diwali" "Sweet Shop" wProse).2 = [TierCall.primary] :=
  C4_parser_total "hello" "Diwali" "Sweet Shop" wProse
    "Sure! Here is your campaign: buy now" rfl rfl

/-- C5 fails as stated: when both tiers fail the returned static object
has fields hook, offer and cta — it has no callToAction field at all, so
the triple named in the claim is not what the static value carries. -/
theorem C5_counterexample :
    generateMarketingCopy "Diwali" "Sweet Shop" wBothFail = staticDefault ∧
    Json.getField staticDefault "callToAction" = none ∧
    Json.getField staticDefault "cta" = some (Json.str "Experience the Future") :=
  ⟨rfl, rfl, rfl⟩

/-- C5 (amended): if both tiers' provider calls fail,
generateMarketingCopy returns exactly the fixed static default object,
and that static value is a complete triple with all three fields hook,
offer and cta non-empty. -/
theorem C5_amended_static_default (topic businessType : String) (w : World)
    (e : PrimFailure) (e2 : SecFailure)
    (hp : callGeminiDirect w.apiKey w.gemLatencyMs w.gemNet
      (userRequest topic businessType) = Except.error e)
    (hs : callPollinationsText w.pollLatencyMs w.pollNet
      (userRequest topic businessType) = Except.error e2) :
    generateMarketingCopy topic businessType w =
      Json.obj [("hook", Json.str "Redefine Excellence. Aaj hi shuru karein."),
                ("offer", Json.str "Premium Launch Privilege: 20% Advantage"),
                ("cta", Json.str "Experience the Future")] ∧
    fullTriple (generateMarketingCopy topic businessType w) = true := by
  have h := run_both_fail topic businessType w e e2 hp hs
  unfold generateMarketingCopy
  rw [h]
  exact ⟨rfl, rfl⟩

/-- C5 (amended) witness at the concrete both-fail world. -/
theorem C5_amended_witness :
    generateMarketingCopy "Diwali" "Sweet Shop" wBothFail =
      Json.obj [("hook", Json.str "Redefine Excellence. Aaj hi shuru karein."),
                ("offer", Json.str "Premium Launch Privilege: 20% Advantage"),
                ("cta", Json.str "Experience the Future")] ∧
    fullTriple (generateMarketingCopy "Diwali" "Sweet Shop" wBothFail) = true :=
  C5_amended_static_default "Diwali" "Sweet Shop" wBothFail
    (PrimFailure.fetchFailed "down") (SecFailure.fetchFailed "down") rfl rfl

/-- C6: the primary tier's network call is bounded by a hard 1500 ms
deadline; once the deadline has elapsed the call fails as aborted
regardless of what the network would have delivered (the in-flight
response is discarded), the orchestrator advances to the secondary tier,
the primary tier is attempted exactly once (no retry), and the secondary
tier's call is independent of latency (no explicit deadline). -/
theorem C6_primary_deadline (topic businessType key p : String) (w : World)
    (net net2 : NetResult GeminiHttp) (lat lat2 lat3 : Nat)
    (pnet : NetResult PollHttp)
    (hlate : 1500 ≤ w.gemLatencyMs) (hlate2 : 1500 ≤ lat) :
    geminiDeadlineMs = 1500 ∧
    callGeminiDirect (some key) lat net p = Except.error PrimFailure.aborted ∧
    callGeminiDirect (some key) lat net p = callGeminiDirect (some key) lat net2 p ∧
    (generateMarketingCopyRun topic businessType w).2 =
      [TierCall.primary, TierCall.secondary] ∧
    (generateMarketingCopyRun topic businessType w).2.count TierCall.primary = 1 ∧
    callPollinationsText lat2 pnet p = callPollinationsText lat3 pnet p := by
  have habort : ∀ n : NetResult GeminiHttp,
      callGeminiDirect (some key) lat n p = Except.error PrimFailure.aborted := by
    intro n
    simp [callGeminiDirect, geminiDeadlineMs, hlate2]
  obtain ⟨e, he⟩ := gemini_late_fails w.apiKey w.gemLatencyMs w.gemNet
    (userRequest topic businessType) hlate
  have htrace : (generateMarketingCopyRun topic businessType w).2 =
      [TierCall.primary, TierCall.secondary] := by
    cases hs : callPollinationsText w.pollLatencyMs w.pollNet
        (userRequest topic businessType) with
    | ok s => rw [run_secondary_ok topic businessType w e s he hs]
    | error e2 => rw [run_both_fail topic businessType w e e2 he hs]
  refine ⟨rfl, habort net, (habort net).trans (habort net2).symm, htrace, ?_, rfl⟩
  rw [htrace]
  rfl

/-- C6 witness at the concrete slow-primary world. -/
theorem C6_primary_deadline_witness :
    geminiDeadlineMs = 1500 ∧
    callGeminiDirect (some "key") 1600 (NetResult.fetchError "a") "x" =
      Except.error PrimFailure.aborted ∧
    callGeminiDirect (some "key") 1600 (NetResult.fetchError "a") "x" =
      callGeminiDirect (some "key") 1600
        (NetResult.got ⟨true, Except.ok "b"⟩) "x" ∧
    (generateMarketingCopyRun "Diwali" "Sweet Shop" wTimeout).2 =
      [TierCall.primary, TierCall.secondary] ∧
    (generateMarketingCopyRun "Diwali" "Sweet Shop" wTimeout).2.count
      TierCall.primary = 1 ∧
    callPollinationsText 3 (NetResult.got ⟨true, "t"⟩) "x" =
      callPollinationsText 77 (NetResult.got ⟨true, "t"⟩) "x" :=
  C6_primary_deadline "Diwali" "Sweet Shop" "key" "x" wTimeout
    (NetResult.fetchError "a") (NetResult.got ⟨true, Except.ok "b"⟩)
    1600 3 77 (NetResult.got ⟨true, "t"⟩) (by decide) (by decide)

/-- C7: tiers are attempted strictly sequentially, primary first: the call
trace is either just the primary call or the primary call followed by the
secondary call, the primary tier is attempted exactly once, the secondary
at most once, and the secondary tier is never invoked when the primary
call succeeds. -/
theorem C7_sequential_tiers (topic businessType : String) (w : World) :
    ((generateMarketingCopyRun topic businessType w).2 = [TierCall.primary] ∨
     (generateMarketingCopyRun topic businessType w).2 =
       [TierCall.primary, TierCall.secondary]) ∧
    (generateMarketingCopyRun topic businessType w).2.count TierCall.primary = 1 ∧
    (generateMarketingCopyRun topic businessType w).2.count TierCall.secondary ≤ 1 ∧
    (∀ s, callGeminiDirect w.apiKey w.gemLatencyMs w.gemNet
        (userRequest topic businessType) = Except.ok s →
      (generateMarketingCopyRun topic businessType w).2 = [TierCall.primary]) := by
  cases hp : callGeminiDirect w.apiKey w.gemLatencyMs w.gemNet
      (userRequest topic businessType) with
  | ok s =>
    rw [run_primary_ok topic businessType w s hp]
    exact ⟨Or.inl rfl, rfl, Nat.zero_le 1, fun _ _ => rfl⟩
  | error e =>
    cases hs : callPollinationsText w.pollLatencyMs w.pollNet
        (userRequest topic businessType) with
    | ok s =>
      rw [run_secondary_ok topic businessType w e s hp hs]
      refine ⟨Or.inr rfl, rfl, Nat.le_refl 1, ?_⟩
      intro s2 h2
      exact nomatch h2
    | error e2 =>
      rw [run_both_fail topic businessType w e e2 hp hs]
      refine ⟨Or.inr rfl, rfl, Nat.le_refl 1, ?_⟩
      intro s2 h2
      exact nomatch h2

/-- C7 witness at the concrete fast-primary world. -/
theorem C7_sequential_tiers_witness :
    ((generateMarketingCopyRun "Diwali" "Sweet Shop" wPrimaryOk).2 =
       [TierCall.primary] ∨
     (generateMarketingCopyRun "Diwali" "Sweet Shop" wPrimaryOk).2 =
       [TierCall.primary, TierCall.secondary]) ∧
    (generateMarketingCopyRun "Diwali" "Sweet Shop" wPrimaryOk).2.count
      TierCall.primary = 1 ∧
    (generateMarketingCopyRun "Diwali" "Sweet Shop" wPrimaryOk).2.count
      TierCall.secondary ≤ 1 ∧
    (∀ s, callGeminiDirect wPrimaryOk.apiKey wPrimaryOk.gemLatencyMs
        wPrimaryOk.gemNet (userRequest "Diwali" "Sweet Shop") = Except.ok s →
      (generateMarketingCopyRun "Diwali" "Sweet Shop" wPrimaryOk).2 =
        [TierCall.primary]) :=
  C7_sequential_tiers "Diwali" "Sweet Shop" wPrimaryOk

/-- C8: the parser strips the markdown code fences (optionally tagged
json), trims the remaining whitespace, and on the spec's example input
yields exactly the object with hook "H", offer "O" and callToAction "C". -/
theorem C8_fence_stripping :
    cleanText "```json\n\x7b\"hook\":\"H\",\"offer\":\"O\",\"callToAction\":\"C\"\x7d\n```" =
      "\x7b\"hook\":\"H\",\"offer\":\"O\",\"callToAction\":\"C\"\x7d" ∧
    parseResponse "```json\n\x7b\"hook\":\"H\",\"offer\":\"O\",\"callToAction\":\"C\"\x7d\n```" =
      Json.obj [("hook", Json.str "H"), ("offer", Json.str "O"),
                ("callToAction", Json.str "C")] :=
  ⟨rfl, rfl⟩

/-- C9: on either tier a non-success transport status is signalled as a
failure value (blocked resp. backupFailed, never silently swallowed), and
the orchestrator treats any two failing primary outcomes — deadline
expiry, non-success status, connection error — identically: given the
same secondary-tier behavior the whole run produces the same result and
the same call trace. -/
theorem C9_uniform_failure_handling (key p : String) (lat lat2 : Nat)
    (ext : Except String String) (body : String)
    (topic businessType : String) (w w2 : World)
    (hlat : lat < 1500)
    (hp : isOkB (callGeminiDirect w.apiKey w.gemLatencyMs w.gemNet
      (userRequest topic businessType)) = false)
    (hp2 : isOkB (callGeminiDirect w2.apiKey w2.gemLatencyMs w2.gemNet
      (userRequest topic businessType)) = false)
    (hpoll : w.pollLatencyMs = w2.pollLatencyMs)
    (hpnet : w.pollNet = w2.pollNet) :
    callGeminiDirect (some key) lat (NetResult.got ⟨false, ext⟩) p =
      Except.error PrimFailure.blocked ∧
    callPollinationsText lat2 (NetResult.got ⟨false, body⟩) p =
      Except.error SecFailure.backupFailed ∧
    generateMarketingCopyRun topic businessType w =
      generateMarketingCopyRun topic businessType w2 := by
  have h1500 : ¬ (geminiDeadlineMs ≤ lat) := by
    simp [geminiDeadlineMs]
    exact hlat
  obtain ⟨e, he⟩ := prim_not_ok_error w.apiKey w.gemLatencyMs w.gemNet
    (userRequest topic businessType) hp
  obtain ⟨e2, he2⟩ := prim_not_ok_error w2.apiKey w2.gemLatencyMs w2.gemNet
    (userRequest topic businessType) hp2
  refine ⟨by simp [callGeminiDirect, h1500], rfl, ?_⟩
  cases hs : callPollinationsText w.pollLatencyMs w.pollNet
      (userRequest topic businessType) with
  | ok s =>
    have hs2 : callPollinationsText w2.pollLatencyMs w2.pollNet
        (userRequest topic businessType) = Except.ok s := by
      rw [← hpoll, ← hpnet]; exact hs
    rw [run_secondary_ok topic businessType w e s he hs,
      run_secondary_ok topic businessType w2 e2 s he2 hs2]
  | error e3 =>
    have hs2 : callPollinationsText w2.pollLatencyMs w2.pollNet
        (userRequest topic businessType) = Except.error e3 := by
      rw [← hpoll, ← hpnet]; exact hs
    rw [run_both_fail topic businessType w e e3 he hs,
      run_both_fail topic businessType w2 e2 e3 he2 hs2]

/-- C9 witness: a connection-error world and a non-success-status world
with the same secondary behavior produce identical runs. -/
theorem C9_uniform_failure_witness :
    callGeminiDirect (some "key") 5 (NetResult.got ⟨false, Except.ok "y"⟩) "x" =
      Except.error PrimFailure.blocked ∧
    callPollinationsText 7 (NetResult.got ⟨false, "z"⟩) "x" =
      Except.error SecFailure.backupFailed ∧
    generateMarketingCopyRun "Diwali" "Sweet Shop" wBothFail =
      generateMarketingCopyRun "Diwali" "Sweet Shop" wBlocked :=
  C9_uniform_failure_handling "key" "x" 5 7 (Except.ok "y") "z"
    "Diwali" "Sweet Shop" wBothFail wBlocked (by decide) rfl rfl rfl rfl

/-- C10: the orchestrator is stateless across requests: with the providers
fixed, processing a batch of requests is the independent per-request map
of generateMarketingCopy — the answer to a request does not depend on the
requests processed before it, and two invocations with the same inputs
return equal results. -/
theorem C10_stateless (topic businessType : String) (w : World)
    (reqs : List (String × String)) :
    processRequests (reqs ++ [(topic, businessType)]) w =
      processRequests reqs w ++ [generateMarketingCopy topic businessType w] ∧
    processRequests [(topic, businessType), (topic, businessType)] w =
      [generateMarketingCopy topic businessType w,
       generateMarketingCopy topic businessType w] := by
  constructor
  · simp [processRequests]
  · simp [processRequests]

end Prachar
